import Mathlib

/-!
Shallow embedding of the webhook verification and event-dispatch path of the
cashfree-go payment-gateway service, together with its pagination handler.

Conventions of the embedding:
* Go strings (byte strings) are modelled as Lean `String`.
* `time.Time` is modelled as `GoTime` (an integer instant); the external
  library parser `time.Parse(time.RFC3339, s)` is a parameter
  `parseRFC3339 : String → Option GoTime` (a `none` result is a parse error).
* The external crypto primitives `crypto/hmac` + `crypto/sha256` and
  `encoding/base64` used by `VerifyWebhookSignature` are parameters collected
  in `CryptoPrims`; the verification logic itself is transcribed from source.
* `encoding/json.Unmarshal` into `WebhookData` is a parameter
  `parseWebhook : String → Option WebhookData`.
* Database calls are modelled as `Effect`s recorded in an execution trace
  (`Step` list); a `storeFails` oracle says which store calls fail, mirroring
  the fact that the Go code only logs such errors and never branches on them.
-/

namespace CashfreeGo

/-- Go `time.Time` instants, abstracted to an integer timestamp. -/
abbrev GoTime := Int

/-- Values produced by `encoding/json` decoding into `interface\x7b\x7d`.
Numbers are stored by Go as `float64`; the webhook handlers never inspect a
numeric value (only `.(string)` type assertions occur), so the numeric payload
is carried as `Rat` purely as an inert non-string case. -/
inductive Json where
  | str (s : String)
  | num (q : Rat)
  | bool (b : Bool)
  | null
  | arr (elems : List Json)
  | obj (fields : List (String × Json))

/-- Go map lookup `m[k]` for a string-keyed map modelled as an assoc list
(first match wins; Go maps have unique keys). -/
def lookupA {α : Type} : List (String × α) → String → Option α
  | [], _ => none
  | (k, v) :: t, key => if key = k then some v else lookupA t key

/-- SQL `UPDATE ... WHERE key = $k`: rewrite the value of every entry whose
key matches, leave the rest untouched. -/
def updateA {α : Type} (l : List (String × α)) (key : String) (f : α → α) :
    List (String × α) :=
  l.map (fun p => if key = p.1 then (p.1, f p.2) else p)

/-- Go comma-ok string type assertion `v, ok := x.(string)` on an optional
map-lookup result: `some s` iff the value exists and is a JSON string. -/
def asString : Option Json → Option String
  | some (Json.str s) => some s
  | _ => none

/-- Go non-checked assertion `v, _ := m[k].(string)`: yields the empty string
when the key is absent or the value is not a string. -/
def asStringD (o : Option Json) : String :=
  (asString o).getD ""

/-- The nested `exists` / `.(string)` / `time.Parse` dance used for the
optional `payment_time` and `processed_at` fields: a missing key, a non-string
value, or a parse failure all silently yield `none`. -/
def parseOptTime (parseRFC3339 : String → Option GoTime) (o : Option Json) :
    Option GoTime :=
  match o with
  | some (Json.str s) => parseRFC3339 s
  | _ => none

/-- External crypto primitives used by the signature verifier:
HMAC-SHA256 (key, message ↦ raw digest bytes) and base64 standard encoding. -/
structure CryptoPrims where
  hmacSHA256 : String → String → String
  base64Encode : String → String

/-- `CashfreeClient.VerifyWebhookSignature` (client.go): concatenate
`timestamp + payload`, HMAC-SHA256 it under the client secret, base64-encode
the digest and compare for exact string equality with the supplied header. -/
def VerifyWebhookSignature (cp : CryptoPrims)
    (clientSecret signature timestamp payload : String) : Bool :=
  let stringToSign := timestamp ++ payload
  let hash := cp.base64Encode (cp.hmacSHA256 clientSecret stringToSign)
  hash == signature

/-- The signing side described by the spec: the signature a legitimate sender
attaches, i.e. the base64-encoded HMAC-SHA256 of `timestamp ++ body`. -/
def signWebhook (cp : CryptoPrims) (secret timestamp body : String) : String :=
  cp.base64Encode (cp.hmacSHA256 secret (timestamp ++ body))

/-- `WebhookData` (client.go): the JSON body `\x7b type, data \x7d`. -/
structure WebhookData where
  type : String
  data : List (String × Json)

/-- Database side effects issued by the webhook path
(repository.go: `CreateWebhookLog`, `UpdatePaymentStatus`,
`UpdateRefundStatus`). -/
inductive Effect where
  | createWebhookLog (eventType : String) (orderID : Option String)
      (payload : String) (status : String)
  | updatePaymentStatus (orderID status : String)
      (cfPaymentID paymentMethod : Option String) (paymentTime : Option GoTime)
  | updateRefundStatus (refundID status : String) (processedAt : Option GoTime)
deriving DecidableEq

/-- Execution-trace steps of `HandleWebhook`: signature verification, JSON
parsing, store calls (tagged with whether the call failed), and the log line
for an unknown event type. -/
inductive Step where
  | verifySignature (ok : Bool)
  | parseBody (ok : Bool)
  | storeCall (e : Effect) (failed : Bool)
  | logUnknownType (eventType : String)
deriving DecidableEq

/-- `handlePaymentSuccessWebhook` (handlers.go): requires `order_id` as a
string (otherwise log and return with no store call); pulls `cf_payment_id`
and `payment_method` with defaulted assertions (empty string when absent) and
`payment_time` via lenient RFC3339 parsing; issues one status update to
"SUCCESS". The Go code passes pointers to the (possibly empty) local strings,
hence the `some` wrappers. -/
def handlePaymentSuccessWebhook (parseRFC3339 : String → Option GoTime)
    (data : List (String × Json)) : List Effect :=
  match asString (lookupA data "order_id") with
  | none => []
  | some orderID =>
    let cfPaymentID := asStringD (lookupA data "cf_payment_id")
    let paymentMethod := asStringD (lookupA data "payment_method")
    let paymentTime := parseOptTime parseRFC3339 (lookupA data "payment_time")
    [Effect.updatePaymentStatus orderID "SUCCESS" (some cfPaymentID)
      (some paymentMethod) paymentTime]

/-- `handlePaymentFailedWebhook` (handlers.go): requires `order_id` as a
string; issues one status update to "FAILED" with nil payment id, method and
time. -/
def handlePaymentFailedWebhook (data : List (String × Json)) : List Effect :=
  match asString (lookupA data "order_id") with
  | none => []
  | some orderID =>
    [Effect.updatePaymentStatus orderID "FAILED" none none none]

/-- `handleRefundStatusWebhook` (handlers.go): requires `refund_id` as a
string; pulls `refund_status` with a defaulted assertion and `processed_at`
via lenient RFC3339 parsing; issues one refund status update. -/
def handleRefundStatusWebhook (parseRFC3339 : String → Option GoTime)
    (data : List (String × Json)) : List Effect :=
  match asString (lookupA data "refund_id") with
  | none => []
  | some refundID =>
    let refundStatus := asStringD (lookupA data "refund_status")
    let processedAt := parseOptTime parseRFC3339 (lookupA data "processed_at")
    [Effect.updateRefundStatus refundID refundStatus processedAt]

/-- `handleSettlementStatusWebhook` (handlers.go): log only, no store calls. -/
def handleSettlementStatusWebhook (_data : List (String × Json)) :
    List Effect :=
  []

/-- Store calls issued by a projection handler, tagged with the failure
oracle result (the Go code only logs a failure, it never branches on it). -/
def stepsOfEffects (storeFails : Effect → Bool) (es : List Effect) :
    List Step :=
  es.map (fun e => Step.storeCall e (storeFails e))

/-- The four event-type identifiers recognized by the dispatch switch. -/
def knownWebhookTypes : List String :=
  ["PAYMENT_SUCCESS_WEBHOOK", "PAYMENT_FAILED_WEBHOOK",
   "REFUND_STATUS_WEBHOOK", "SETTLEMENT_STATUS_WEBHOOK"]

/-- The `switch webhookData.Type` dispatch in `HandleWebhook` (handlers.go):
exact string match against the four known identifiers; anything else only
produces the "Unknown webhook type" log line. -/
def dispatchWebhook (parseRFC3339 : String → Option GoTime)
    (storeFails : Effect → Bool) (eventType : String)
    (data : List (String × Json)) : List Step :=
  if eventType = "PAYMENT_SUCCESS_WEBHOOK" then
    stepsOfEffects storeFails (handlePaymentSuccessWebhook parseRFC3339 data)
  else if eventType = "PAYMENT_FAILED_WEBHOOK" then
    stepsOfEffects storeFails (handlePaymentFailedWebhook data)
  else if eventType = "REFUND_STATUS_WEBHOOK" then
    stepsOfEffects storeFails (handleRefundStatusWebhook parseRFC3339 data)
  else if eventType = "SETTLEMENT_STATUS_WEBHOOK" then
    stepsOfEffects storeFails (handleSettlementStatusWebhook data)
  else
    [Step.logUnknownType eventType]

/-- An HTTP response as produced by `c.JSON(code, gin.H\x7b...\x7d)` for the
flat string-valued objects this handler emits. -/
structure GinResponse where
  status : Nat
  body : List (String × String)
deriving DecidableEq

/-- The audit-log record written by `HandleWebhook` before dispatch: event
type, opportunistically extracted `order_id`, raw payload, status RECEIVED. -/
def webhookLogEffect (wd : WebhookData) (body : String) : Effect :=
  Effect.createWebhookLog wd.type (asString (lookupA wd.data "order_id"))
    body "RECEIVED"

/-- `PaymentHandler.HandleWebhook` (handlers.go), transcribed statement by
statement: missing/empty header check (Go `c.GetHeader` returns "" for an
absent header) → signature verification → JSON parse → audit-log write →
dispatch switch → 200. Returns the response together with the execution
trace. -/
def HandleWebhook (cp : CryptoPrims) (clientSecret : String)
    (parseWebhook : String → Option WebhookData)
    (parseRFC3339 : String → Option GoTime)
    (storeFails : Effect → Bool)
    (signature timestamp body : String) : GinResponse × List Step :=
  if signature = "" ∨ timestamp = "" then
    (⟨400, [("error", "Missing webhook headers")]⟩, [])
  else if VerifyWebhookSignature cp clientSecret signature timestamp body
      = false then
    (⟨401, [("error", "Invalid signature")]⟩, [Step.verifySignature false])
  else
    match parseWebhook body with
    | none =>
      (⟨400, [("error", "Invalid webhook data")]⟩,
        [Step.verifySignature true, Step.parseBody false])
    | some wd =>
      let logEff := webhookLogEffect wd body
      (⟨200, [("status", "success")]⟩,
        Step.verifySignature true :: Step.parseBody true ::
          Step.storeCall logEff (storeFails logEff) ::
          dispatchWebhook parseRFC3339 storeFails wd.type wd.data)

/-- All store calls attempted in a trace (failed or not). -/
def effectsOf (steps : List Step) : List Effect :=
  steps.filterMap (fun st =>
    match st with
    | Step.storeCall e _ => some e
    | _ => none)

/-- The slice of a payments row touched by `UpdatePaymentStatus`
(repository.go): `SET status, cf_payment_id, payment_method, payment_time`.
`none` is a SQL NULL. -/
structure PaymentRec where
  status : String
  cfPaymentID : Option String
  paymentMethod : Option String
  paymentTime : Option GoTime
deriving DecidableEq

/-- The slice of a refunds row touched by `UpdateRefundStatus`
(repository.go): `SET status, processed_at`. -/
structure RefundRec where
  status : String
  processedAt : Option GoTime
deriving DecidableEq

/-- A webhooks audit row as inserted by `CreateWebhookLog` (repository.go). -/
structure WebhookLogRec where
  eventType : String
  orderID : Option String
  payload : String
  status : String
deriving DecidableEq

/-- The persisted store: payments keyed by `order_id`, refunds keyed by
`refund_id`, and the append-only webhooks audit table. -/
structure Store where
  payments : List (String × PaymentRec)
  refunds : List (String × RefundRec)
  webhookLogs : List WebhookLogRec
deriving DecidableEq

/-- Row-level semantics of each repository call: the audit insert appends;
the two UPDATE statements overwrite every listed column of the row matching
the key (other columns of the row are not modelled because no webhook-path
statement touches them). -/
def applyEffect (s : Store) : Effect → Store
  | Effect.createWebhookLog et oid payload st =>
    { s with webhookLogs := s.webhookLogs ++ [⟨et, oid, payload, st⟩] }
  | Effect.updatePaymentStatus oid st cfp pm pt =>
    { s with payments := updateA s.payments oid (fun _ => ⟨st, cfp, pm, pt⟩) }
  | Effect.updateRefundStatus rid st pa =>
    { s with refunds := updateA s.refunds rid (fun _ => ⟨st, pa⟩) }

/-- Apply a list of store effects in order. -/
def applyEffects (s : Store) (es : List Effect) : Store :=
  es.foldl applyEffect s

/-- Looking a key up after a keyed rewrite sees the rewritten value exactly
when the key was present. -/
theorem lookupA_updateA {α : Type} (l : List (String × α)) (key : String)
    (f : α → α) :
    lookupA (updateA l key f) key = (lookupA l key).map f := by
  induction l with
  | nil => rfl
  | cons p t ih =>
    obtain ⟨k, v⟩ := p
    simp only [updateA, List.map_cons] at *
    by_cases h : key = k
    · subst h
      rw [if_pos rfl]
      simp [lookupA]
    · rw [if_neg h]
      simpa [lookupA, h] using ih

/-- Go `strconv.Atoi` digit accumulation: `none` as soon as a non-digit
appears (base 10, ASCII digits only, underscores rejected). -/
def parseDigits (cs : List Char) : Option Nat :=
  cs.foldl (fun acc c =>
    match acc with
    | none => none
    | some n =>
      if c.isDigit then some (n * 10 + (c.toNat - 48)) else none) (some 0)

/-- Largest value representable in Go `int` (64-bit). -/
def int64Max : Int := 9223372036854775807

/-- Smallest value representable in Go `int` (64-bit). -/
def int64Min : Int := -9223372036854775808

/-- Go `strconv.Atoi` (= `ParseInt(s, 10, 64)`): optional single leading sign,
then at least one ASCII digit; `none` on empty input, any non-digit, or a
value outside the signed 64-bit range (Go reports a range error whose non-nil
`err` is all the caller inspects). -/
def goAtoi (s : String) : Option Int :=
  let signed : Bool × List Char :=
    match s.toList with
    | '+' :: t => (false, t)
    | '-' :: t => (true, t)
    | t => (false, t)
  match signed with
  | (neg, ds) =>
    if ds.isEmpty then none
    else
      match parseDigits ds with
      | none => none
      | some n =>
        let v : Int := if neg then -(n : Int) else (n : Int)
        if v < int64Min ∨ int64Max < v then none else some v

/-- The limit value after the first clamp in `GetAllPayments` (handlers.go):
Atoi failure or a non-positive value falls back to 10. -/
def rawLimit (limitStr : String) : Int :=
  match goAtoi limitStr with
  | none => 10
  | some v => if v ≤ 0 then 10 else v

/-- The limit computation in `GetAllPayments` (handlers.go): the fallback
clamp above, then values above 100 are capped at 100. -/
def effectiveLimit (limitStr : String) : Int :=
  if 100 < rawLimit limitStr then 100 else rawLimit limitStr

/-- The offset computation in `GetAllPayments` (handlers.go): Atoi failure or
a negative value falls back to 0. -/
def effectiveOffset (offsetStr : String) : Int :=
  match goAtoi offsetStr with
  | none => 0
  | some v => if v < 0 then 0 else v

/-- `PaymentRepository.GetAllPayments` (repository.go):
`SELECT ... ORDER BY created_at DESC LIMIT $1 OFFSET $2`, over a database
modelled as its rows already in `created_at DESC` order. -/
def repoGetAllPayments {α : Type} (db : List α) (limit offset : Int) :
    List α :=
  (db.drop offset.toNat).take limit.toNat

/-- Response of the list endpoint: either the success object
(payments, limit, offset, count) or the 500 error object. -/
inductive PaymentsListResult (α : Type) where
  | ok (payments : List α) (limit offset : Int) (count : Nat)
  | serverError (message : String)
deriving DecidableEq

/-- `PaymentHandler.GetAllPayments` (handlers.go): `DefaultQuery` defaults of
"10" and "0", clamping as in the source, repository query, echo of the
clamped limit and offset plus the record count. -/
def GetAllPayments {α : Type} (db : List α) (dbFails : Bool)
    (qLimit qOffset : Option String) : PaymentsListResult α :=
  let limitStr := qLimit.getD "10"
  let offsetStr := qOffset.getD "0"
  let limit := effectiveLimit limitStr
  let offset := effectiveOffset offsetStr
  if dbFails then
    PaymentsListResult.serverError "Failed to retrieve payments"
  else
    let payments := repoGetAllPayments db limit offset
    PaymentsListResult.ok payments limit offset payments.length

/-- The first clamp yields a positive limit. -/
theorem rawLimit_pos (s : String) : 0 < rawLimit s := by
  unfold rawLimit
  rcases hv : goAtoi s with _ | v
  · simp only [hv]
    omega
  · simp only [hv]
    split <;> omega

/-- The effective limit is always at most 100. -/
theorem effectiveLimit_le_100 (s : String) : effectiveLimit s ≤ 100 := by
  unfold effectiveLimit
  split <;> omega

/-- The effective limit is always positive. -/
theorem effectiveLimit_pos (s : String) : 0 < effectiveLimit s := by
  have h := rawLimit_pos s
  unfold effectiveLimit
  split <;> omega

/-- C2: on every inbound webhook whose headers are present, whose signature
verifies and whose body parses, the audit-log write (`CreateWebhookLog`) sits
in the trace strictly before the dispatch switch runs, and the response is
200 with body status success — for every store-failure oracle `storeFails`,
i.e. regardless of whether the audit write or any downstream projection
fails. -/
theorem webhook_audit_log_before_dispatch
    (cp : CryptoPrims) (clientSecret : String)
    (parseWebhook : String → Option WebhookData)
    (parseRFC3339 : String → Option GoTime)
    (storeFails : Effect → Bool)
    (signature timestamp body : String) (wd : WebhookData)
    (hs : signature ≠ "") (ht : timestamp ≠ "")
    (hv : VerifyWebhookSignature cp clientSecret signature timestamp body
      = true)
    (hp : parseWebhook body = some wd) :
    HandleWebhook cp clientSecret parseWebhook parseRFC3339 storeFails
        signature timestamp body =
      (⟨200, [("status", "success")]⟩,
        Step.verifySignature true :: Step.parseBody true ::
          Step.storeCall (webhookLogEffect wd body)
            (storeFails (webhookLogEffect wd body)) ::
          dispatchWebhook parseRFC3339 storeFails wd.type wd.data) := by
  simp [HandleWebhook, hs, ht, hv, hp]

/-- C2 witness: a concrete run through the success path, with an unknown
event type so the dispatch part is inert. -/
theorem webhook_audit_log_before_dispatch_witness :
    HandleWebhook ⟨fun k m => k ++ m, fun s => s⟩ "sec"
        (fun _ => some ⟨"T", []⟩) (fun _ => none) (fun _ => false)
        "sectsbody" "ts" "body" =
      (⟨200, [("status", "success")]⟩,
        [Step.verifySignature true, Step.parseBody true,
          Step.storeCall (Effect.createWebhookLog "T" none "body" "RECEIVED")
            false,
          Step.logUnknownType "T"]) :=
  webhook_audit_log_before_dispatch ⟨fun k m => k ++ m, fun s => s⟩ "sec"
    (fun _ => some ⟨"T", []⟩) (fun _ => none) (fun _ => false)
    "sectsbody" "ts" "body" ⟨"T", []⟩ (by decide) (by decide) rfl rfl

/-- C3: when both headers are present but the computed signature does not
match the supplied one, the handler answers 401 with an authentication error
and the trace is exactly the failed verification: the JSON body is never
parsed, no event handler runs, no audit-log entry is created. -/
theorem webhook_invalid_signature_rejected
    (cp : CryptoPrims) (clientSecret : String)
    (parseWebhook : String → Option WebhookData)
    (parseRFC3339 : String → Option GoTime)
    (storeFails : Effect → Bool)
    (signature timestamp body : String)
    (hs : signature ≠ "") (ht : timestamp ≠ "")
    (hv : VerifyWebhookSignature cp clientSecret signature timestamp body
      = false) :
    HandleWebhook cp clientSecret parseWebhook parseRFC3339 storeFails
        signature timestamp body =
      (⟨401, [("error", "Invalid signature")]⟩,
        [Step.verifySignature false]) := by
  simp [HandleWebhook, hs, ht, hv]

/-- C3 witness: a concrete rejected signature. -/
theorem webhook_invalid_signature_rejected_witness :
    HandleWebhook ⟨fun k m => k ++ m, fun s => s⟩ "sec"
        (fun _ => some ⟨"T", []⟩) (fun _ => none) (fun _ => false)
        "WRONG" "ts" "body" =
      (⟨401, [("error", "Invalid signature")]⟩,
        [Step.verifySignature false]) :=
  webhook_invalid_signature_rejected ⟨fun k m => k ++ m, fun s => s⟩ "sec"
    (fun _ => some ⟨"T", []⟩) (fun _ => none) (fun _ => false)
    "WRONG" "ts" "body" (by decide) (by decide) rfl

/-- C4: when the signature header or the timestamp header is absent or empty
(Go `c.GetHeader` yields "" in either case), the handler answers 400 with an
empty trace — no signature verification, no JSON parsing, no audit-log entry
— for every body whatsoever. -/
theorem webhook_missing_headers_bad_request
    (cp : CryptoPrims) (clientSecret : String)
    (parseWebhook : String → Option WebhookData)
    (parseRFC3339 : String → Option GoTime)
    (storeFails : Effect → Bool)
    (signature timestamp body : String)
    (h : signature = "" ∨ timestamp = "") :
    HandleWebhook cp clientSecret parseWebhook parseRFC3339 storeFails
        signature timestamp body =
      (⟨400, [("error", "Missing webhook headers")]⟩, []) := by
  rcases h with h | h <;> simp [HandleWebhook, h]

/-- C4 witness: empty signature header with a perfectly valid body. -/
theorem webhook_missing_headers_bad_request_witness :
    HandleWebhook ⟨fun k m => k ++ m, fun s => s⟩ "sec"
        (fun _ => some ⟨"PAYMENT_SUCCESS_WEBHOOK", []⟩) (fun _ => none)
        (fun _ => false) "" "ts" "body" =
      (⟨400, [("error", "Missing webhook headers")]⟩, []) :=
  webhook_missing_headers_bad_request ⟨fun k m => k ++ m, fun s => s⟩ "sec"
    (fun _ => some ⟨"PAYMENT_SUCCESS_WEBHOOK", []⟩) (fun _ => none)
    (fun _ => false) "" "ts" "body" (Or.inl rfl)

/-- C5: a request with a valid signature whose body fails JSON decoding is
answered 400, and the trace holds no store call: no audit-log record is
created. -/
theorem webhook_unparseable_body_bad_request
    (cp : CryptoPrims) (clientSecret : String)
    (parseWebhook : String → Option WebhookData)
    (parseRFC3339 : String → Option GoTime)
    (storeFails : Effect → Bool)
    (signature timestamp body : String)
    (hs : signature ≠ "") (ht : timestamp ≠ "")
    (hv : VerifyWebhookSignature cp clientSecret signature timestamp body
      = true)
    (hp : parseWebhook body = none) :
    HandleWebhook cp clientSecret parseWebhook parseRFC3339 storeFails
        signature timestamp body =
      (⟨400, [("error", "Invalid webhook data")]⟩,
        [Step.verifySignature true, Step.parseBody false]) ∧
    effectsOf [Step.verifySignature true, Step.parseBody false] = [] := by
  constructor
  · simp [HandleWebhook, hs, ht, hv, hp]
  · rfl

/-- C5 witness: a concrete verified-but-undecodable body. -/
theorem webhook_unparseable_body_bad_request_witness :
    HandleWebhook ⟨fun k m => k ++ m, fun s => s⟩ "sec"
        (fun _ => none) (fun _ => none) (fun _ => false)
        "sectsnotjson" "ts" "notjson" =
      (⟨400, [("error", "Invalid webhook data")]⟩,
        [Step.verifySignature true, Step.parseBody false]) ∧
    effectsOf [Step.verifySignature true, Step.parseBody false] = [] :=
  webhook_unparseable_body_bad_request ⟨fun k m => k ++ m, fun s => s⟩ "sec"
    (fun _ => none) (fun _ => none) (fun _ => false)
    "sectsnotjson" "ts" "notjson" (by decide) (by decide) rfl rfl

/-- C6: for every successfully parsed webhook event the response is 200, the
dispatch switch selects exactly the handler matching the type string among
the four known identifiers, and any other type only yields the
unknown-event-type log line: no projection handler runs and the sole store
effect of the whole request is the already-written audit-log entry. -/
theorem webhook_dispatch_exact_match
    (cp : CryptoPrims) (clientSecret : String)
    (parseWebhook : String → Option WebhookData)
    (parseRFC3339 : String → Option GoTime)
    (storeFails : Effect → Bool)
    (signature timestamp body : String) (wd : WebhookData)
    (hs : signature ≠ "") (ht : timestamp ≠ "")
    (hv : VerifyWebhookSignature cp clientSecret signature timestamp body
      = true)
    (hp : parseWebhook body = some wd) :
    (HandleWebhook cp clientSecret parseWebhook parseRFC3339 storeFails
        signature timestamp body).1 = ⟨200, [("status", "success")]⟩ ∧
    (wd.type = "PAYMENT_SUCCESS_WEBHOOK" →
      dispatchWebhook parseRFC3339 storeFails wd.type wd.data =
        stepsOfEffects storeFails
          (handlePaymentSuccessWebhook parseRFC3339 wd.data)) ∧
    (wd.type = "PAYMENT_FAILED_WEBHOOK" →
      dispatchWebhook parseRFC3339 storeFails wd.type wd.data =
        stepsOfEffects storeFails (handlePaymentFailedWebhook wd.data)) ∧
    (wd.type = "REFUND_STATUS_WEBHOOK" →
      dispatchWebhook parseRFC3339 storeFails wd.type wd.data =
        stepsOfEffects storeFails
          (handleRefundStatusWebhook parseRFC3339 wd.data)) ∧
    (wd.type = "SETTLEMENT_STATUS_WEBHOOK" →
      dispatchWebhook parseRFC3339 storeFails wd.type wd.data =
        stepsOfEffects storeFails (handleSettlementStatusWebhook wd.data)) ∧
    (wd.type ∉ knownWebhookTypes →
      dispatchWebhook parseRFC3339 storeFails wd.type wd.data =
        [Step.logUnknownType wd.type] ∧
      effectsOf (HandleWebhook cp clientSecret parseWebhook parseRFC3339
          storeFails signature timestamp body).2 =
        [webhookLogEffect wd body]) := by
  refine ⟨?_, ?_, ?_, ?_, ?_, ?_⟩
  · simp [HandleWebhook, hs, ht, hv, hp]
  · intro h
    rw [h]
    rfl
  · intro h
    rw [h]
    rfl
  · intro h
    rw [h]
    rfl
  · intro h
    rw [h]
    rfl
  · intro h
    simp only [knownWebhookTypes, List.mem_cons, List.mem_singleton,
      not_or] at h
    obtain ⟨h1, h2, h3, h4⟩ := h
    constructor
    · simp [dispatchWebhook, h1, h2, h3, h4]
    · simp [HandleWebhook, hs, ht, hv, hp, effectsOf, dispatchWebhook,
        h1, h2, h3, h4]

/-- C6 witness: a concrete event of unknown type SOMETHING_UNKNOWN ends in a
200 response whose only store effect is the audit-log insert. -/
theorem webhook_dispatch_exact_match_witness :
    (HandleWebhook ⟨fun k m => k ++ m, fun s => s⟩ "sec"
        (fun _ => some ⟨"SOMETHING_UNKNOWN", []⟩) (fun _ => none)
        (fun _ => false) "sectsbody2" "ts" "body2").1 =
      ⟨200, [("status", "success")]⟩ ∧
    ((WebhookData.mk "SOMETHING_UNKNOWN" []).type = "PAYMENT_SUCCESS_WEBHOOK" →
      dispatchWebhook (fun _ => none) (fun _ => false)
          (WebhookData.mk "SOMETHING_UNKNOWN" []).type
          (WebhookData.mk "SOMETHING_UNKNOWN" []).data =
        stepsOfEffects (fun _ => false)
          (handlePaymentSuccessWebhook (fun _ => none)
            (WebhookData.mk "SOMETHING_UNKNOWN" []).data)) ∧
    ((WebhookData.mk "SOMETHING_UNKNOWN" []).type = "PAYMENT_FAILED_WEBHOOK" →
      dispatchWebhook (fun _ => none) (fun _ => false)
          (WebhookData.mk "SOMETHING_UNKNOWN" []).type
          (WebhookData.mk "SOMETHING_UNKNOWN" []).data =
        stepsOfEffects (fun _ => false)
          (handlePaymentFailedWebhook
            (WebhookData.mk "SOMETHING_UNKNOWN" []).data)) ∧
    ((WebhookData.mk "SOMETHING_UNKNOWN" []).type = "REFUND_STATUS_WEBHOOK" →
      dispatchWebhook (fun _ => none) (fun _ => false)
          (WebhookData.mk "SOMETHING_UNKNOWN" []).type
          (WebhookData.mk "SOMETHING_UNKNOWN" []).data =
        stepsOfEffects (fun _ => false)
          (handleRefundStatusWebhook (fun _ => none)
            (WebhookData.mk "SOMETHING_UNKNOWN" []).data)) ∧
    ((WebhookData.mk "SOMETHING_UNKNOWN" []).type
        = "SETTLEMENT_STATUS_WEBHOOK" →
      dispatchWebhook (fun _ => none) (fun _ => false)
          (WebhookData.mk "SOMETHING_UNKNOWN" []).type
          (WebhookData.mk "SOMETHING_UNKNOWN" []).data =
        stepsOfEffects (fun _ => false)
          (handleSettlementStatusWebhook
            (WebhookData.mk "SOMETHING_UNKNOWN" []).data)) ∧
    ((WebhookData.mk "SOMETHING_UNKNOWN" []).type ∉ knownWebhookTypes →
      dispatchWebhook (fun _ => none) (fun _ => false)
          (WebhookData.mk "SOMETHING_UNKNOWN" []).type
          (WebhookData.mk "SOMETHING_UNKNOWN" []).data =
        [Step.logUnknownType (WebhookData.mk "SOMETHING_UNKNOWN" []).type] ∧
      effectsOf (HandleWebhook ⟨fun k m => k ++ m, fun s => s⟩ "sec"
          (fun _ => some ⟨"SOMETHING_UNKNOWN", []⟩) (fun _ => none)
          (fun _ => false) "sectsbody2" "ts" "body2").2 =
        [webhookLogEffect (WebhookData.mk "SOMETHING_UNKNOWN" []) "body2"]) :=
  webhook_dispatch_exact_match ⟨fun k m => k ++ m, fun s => s⟩ "sec"
    (fun _ => some ⟨"SOMETHING_UNKNOWN", []⟩) (fun _ => none)
    (fun _ => false) "sectsbody2" "ts" "body2" ⟨"SOMETHING_UNKNOWN", []⟩
    (by decide) (by decide) rfl rfl

/-- C7: on a PAYMENT_SUCCESS_WEBHOOK event, if `data.order_id` is a string
the handler issues exactly one update setting that payment to status SUCCESS
with the (possibly empty-string) `cf_payment_id` and `payment_method` and the
leniently parsed `payment_time` (a missing, non-string, or unparseable value
becomes `none`); applied to any store, the row keyed by that order id — when
present — carries exactly those fields afterwards. If `order_id` is absent or
not a string, the handler only logs: no store effect at all. -/
theorem payment_success_projection
    (parseRFC3339 : String → Option GoTime)
    (data : List (String × Json)) (s : Store) :
    match asString (lookupA data "order_id") with
    | some oid =>
      handlePaymentSuccessWebhook parseRFC3339 data =
        [Effect.updatePaymentStatus oid "SUCCESS"
          (some (asStringD (lookupA data "cf_payment_id")))
          (some (asStringD (lookupA data "payment_method")))
          (parseOptTime parseRFC3339 (lookupA data "payment_time"))] ∧
      lookupA (applyEffects s
          (handlePaymentSuccessWebhook parseRFC3339 data)).payments oid =
        (lookupA s.payments oid).map (fun _ =>
          (⟨"SUCCESS", some (asStringD (lookupA data "cf_payment_id")),
            some (asStringD (lookupA data "payment_method")),
            parseOptTime parseRFC3339 (lookupA data "payment_time")⟩ :
            PaymentRec))
    | none => handlePaymentSuccessWebhook parseRFC3339 data = [] := by
  rcases hcase : asString (lookupA data "order_id") with _ | oid
  · simp [handlePaymentSuccessWebhook, hcase]
  · refine ⟨?_, ?_⟩
    · simp [handlePaymentSuccessWebhook, hcase]
    · simp [handlePaymentSuccessWebhook, hcase, applyEffects, applyEffect,
        lookupA_updateA]

/-- C7 witness: concrete success event with all fields present, applied to a
store holding the payment in status CREATED; RFC3339 parsing modelled by a
one-point parse function. -/
theorem payment_success_projection_witness :
    handlePaymentSuccessWebhook
        (fun s => if s = "2024-01-01T00:00:00Z" then some 1704067200 else none)
        [("order_id", Json.str "o1"), ("cf_payment_id", Json.str "p1"),
          ("payment_method", Json.str "card"),
          ("payment_time", Json.str "2024-01-01T00:00:00Z")] =
      [Effect.updatePaymentStatus "o1" "SUCCESS" (some "p1") (some "card")
        (some 1704067200)] ∧
    lookupA (applyEffects
        ⟨[("o1", ⟨"CREATED", none, none, none⟩)], [], []⟩
        (handlePaymentSuccessWebhook
          (fun s => if s = "2024-01-01T00:00:00Z" then some 1704067200
            else none)
          [("order_id", Json.str "o1"), ("cf_payment_id", Json.str "p1"),
            ("payment_method", Json.str "card"),
            ("payment_time", Json.str "2024-01-01T00:00:00Z")])).payments
        "o1" =
      some ⟨"SUCCESS", some "p1", some "card", some 1704067200⟩ :=
  payment_success_projection
    (fun s => if s = "2024-01-01T00:00:00Z" then some 1704067200 else none)
    [("order_id", Json.str "o1"), ("cf_payment_id", Json.str "p1"),
      ("payment_method", Json.str "card"),
      ("payment_time", Json.str "2024-01-01T00:00:00Z")]
    ⟨[("o1", ⟨"CREATED", none, none, none⟩)], [], []⟩

/-- C8: on a PAYMENT_FAILED_WEBHOOK event, if `data.order_id` is a string the
handler issues exactly one update setting that payment to status FAILED with
payment id, method and time all cleared to NULL (the repository UPDATE
overwrites all three columns with the nil arguments); applied to any store,
the row keyed by that order id — when present — is exactly
FAILED/NULL/NULL/NULL afterwards. If `order_id` is absent or not a string, no
update is attempted. -/
theorem payment_failed_projection
    (data : List (String × Json)) (s : Store) :
    match asString (lookupA data "order_id") with
    | some oid =>
      handlePaymentFailedWebhook data =
        [Effect.updatePaymentStatus oid "FAILED" none none none] ∧
      lookupA (applyEffects s (handlePaymentFailedWebhook data)).payments
          oid =
        (lookupA s.payments oid).map (fun _ =>
          (⟨"FAILED", none, none, none⟩ : PaymentRec))
    | none => handlePaymentFailedWebhook data = [] := by
  rcases hcase : asString (lookupA data "order_id") with _ | oid
  · simp [handlePaymentFailedWebhook, hcase]
  · refine ⟨?_, ?_⟩
    · simp [handlePaymentFailedWebhook, hcase]
    · simp [handlePaymentFailedWebhook, hcase, applyEffects, applyEffect,
        lookupA_updateA]

/-- C8 witness: a concrete failed event clears previously attached payment
details of the stored record. -/
theorem payment_failed_projection_witness :
    handlePaymentFailedWebhook [("order_id", Json.str "o2")] =
      [Effect.updatePaymentStatus "o2" "FAILED" none none none] ∧
    lookupA (applyEffects
        ⟨[("o2", ⟨"SUCCESS", some "p9", some "card", some 5⟩)], [], []⟩
        (handlePaymentFailedWebhook [("order_id", Json.str "o2")])).payments
        "o2" =
      some ⟨"FAILED", none, none, none⟩ :=
  payment_failed_projection [("order_id", Json.str "o2")]
    ⟨[("o2", ⟨"SUCCESS", some "p9", some "card", some 5⟩)], [], []⟩

/-- C10: absent optional string fields are still written, as empty strings.
A PAYMENT_SUCCESS_WEBHOOK whose data holds no `cf_payment_id` and no
`payment_method` updates the payment with `some ""` for both (the Go code
passes pointers to defaulted locals, never nil), overwriting whatever the
stored row held; a REFUND_STATUS_WEBHOOK whose data holds no `refund_status`
sets the refund status to the empty string. -/
theorem absent_optional_fields_written_as_empty
    (parseRFC3339 : String → Option GoTime)
    (pdata rdata : List (String × Json)) (s : Store) (oid rid : String)
    (h1 : lookupA pdata "order_id" = some (Json.str oid))
    (h2 : lookupA pdata "cf_payment_id" = none)
    (h3 : lookupA pdata "payment_method" = none)
    (h4 : lookupA rdata "refund_id" = some (Json.str rid))
    (h5 : lookupA rdata "refund_status" = none) :
    handlePaymentSuccessWebhook parseRFC3339 pdata =
      [Effect.updatePaymentStatus oid "SUCCESS" (some "") (some "")
        (parseOptTime parseRFC3339 (lookupA pdata "payment_time"))] ∧
    lookupA (applyEffects s
        (handlePaymentSuccessWebhook parseRFC3339 pdata)).payments oid =
      (lookupA s.payments oid).map (fun _ =>
        (⟨"SUCCESS", some "", some "",
          parseOptTime parseRFC3339 (lookupA pdata "payment_time")⟩ :
          PaymentRec)) ∧
    handleRefundStatusWebhook parseRFC3339 rdata =
      [Effect.updateRefundStatus rid ""
        (parseOptTime parseRFC3339 (lookupA rdata "processed_at"))] ∧
    lookupA (applyEffects s
        (handleRefundStatusWebhook parseRFC3339 rdata)).refunds rid =
      (lookupA s.refunds rid).map (fun _ =>
        (⟨"", parseOptTime parseRFC3339 (lookupA rdata "processed_at")⟩ :
          RefundRec)) := by
  refine ⟨?_, ?_, ?_, ?_⟩
  · simp [handlePaymentSuccessWebhook, h1, h2, h3, asStringD, asString]
  · simp [handlePaymentSuccessWebhook, h1, h2, h3, asStringD, asString,
      applyEffects, applyEffect, lookupA_updateA]
  · simp [handleRefundStatusWebhook, h4, h5, asStringD, asString]
  · simp [handleRefundStatusWebhook, h4, h5, asStringD, asString,
      applyEffects, applyEffect, lookupA_updateA]

/-- C10 witness: concrete events with the optional fields absent, applied to
a store with previously populated rows; both rows end up holding empty
strings where the old values were. -/
theorem absent_optional_fields_written_as_empty_witness :
    handlePaymentSuccessWebhook (fun _ => none)
        [("order_id", Json.str "o3")] =
      [Effect.updatePaymentStatus "o3" "SUCCESS" (some "") (some "") none] ∧
    lookupA (applyEffects
        ⟨[("o3", ⟨"CREATED", some "old", some "upi", some 3⟩)],
          [("r3", ⟨"PENDING", some 4⟩)], []⟩
        (handlePaymentSuccessWebhook (fun _ => none)
          [("order_id", Json.str "o3")])).payments "o3" =
      some ⟨"SUCCESS", some "", some "", none⟩ ∧
    handleRefundStatusWebhook (fun _ => none)
        [("refund_id", Json.str "r3")] =
      [Effect.updateRefundStatus "r3" "" none] ∧
    lookupA (applyEffects
        ⟨[("o3", ⟨"CREATED", some "old", some "upi", some 3⟩)],
          [("r3", ⟨"PENDING", some 4⟩)], []⟩
        (handleRefundStatusWebhook (fun _ => none)
          [("refund_id", Json.str "r3")])).refunds "r3" =
      some ⟨"", none⟩ :=
  absent_optional_fields_written_as_empty (fun _ => none)
    [("order_id", Json.str "o3")] [("refund_id", Json.str "r3")]
    ⟨[("o3", ⟨"CREATED", some "old", some "upi", some 3⟩)],
      [("r3", ⟨"PENDING", some 4⟩)], []⟩
    "o3" "r3" rfl rfl rfl rfl rfl

/-- C9 counterexample: the limit query string "9223372036854775808" (the
value 2^63) is numeric and greater than 100, so the claim predicts an
effective limit of 100; but `strconv.Atoi` fails with a 64-bit range error on
it, so `GetAllPayments` falls back to the default limit 10. -/
theorem getAllPayments_limit_overflow_counterexample :
    (100 : Int) < 9223372036854775808 ∧
    goAtoi "9223372036854775808" = none ∧
    effectiveLimit "9223372036854775808" = 10 ∧
    effectiveLimit "9223372036854775808" ≠ 100 := by
  refine ⟨by norm_num, by decide, by decide, by decide⟩

/-- C9 (amended): the effective limit is 10 when parsing fails (non-numeric
or out of 64-bit range) or yields a non-positive value, 100 when the parsed
value exceeds 100, and the parsed value itself otherwise; the effective
offset is 0 when parsing fails or yields a negative value, and the parsed
value otherwise; a successful response echoes exactly these clamped values,
and the number of returned records never exceeds 100. -/
theorem getAllPayments_pagination_clamped {α : Type} (db : List α)
    (qLimit qOffset : Option String) :
    (match goAtoi (qLimit.getD "10") with
     | none => effectiveLimit (qLimit.getD "10") = 10
     | some v =>
       if v ≤ 0 then effectiveLimit (qLimit.getD "10") = 10
       else if 100 < v then effectiveLimit (qLimit.getD "10") = 100
       else effectiveLimit (qLimit.getD "10") = v) ∧
    (match goAtoi (qOffset.getD "0") with
     | none => effectiveOffset (qOffset.getD "0") = 0
     | some v =>
       if v < 0 then effectiveOffset (qOffset.getD "0") = 0
       else effectiveOffset (qOffset.getD "0") = v) ∧
    GetAllPayments db false qLimit qOffset =
      PaymentsListResult.ok
        (repoGetAllPayments db (effectiveLimit (qLimit.getD "10"))
          (effectiveOffset (qOffset.getD "0")))
        (effectiveLimit (qLimit.getD "10"))
        (effectiveOffset (qOffset.getD "0"))
        (repoGetAllPayments db (effectiveLimit (qLimit.getD "10"))
          (effectiveOffset (qOffset.getD "0"))).length ∧
    (repoGetAllPayments db (effectiveLimit (qLimit.getD "10"))
      (effectiveOffset (qOffset.getD "0"))).length ≤ 100 := by
  refine ⟨?_, ?_, ?_, ?_⟩
  · rcases hv : goAtoi (qLimit.getD "10") with _ | v
    · simp only [hv]
      unfold effectiveLimit rawLimit
      simp [hv]
    · simp only [hv]
      split_ifs with h1 h2
      · unfold effectiveLimit rawLimit
        simp only [hv]
        rw [if_pos h1]
        norm_num
      · unfold effectiveLimit rawLimit
        simp only [hv]
        rw [if_neg h1, if_pos h2]
      · unfold effectiveLimit rawLimit
        simp only [hv]
        rw [if_neg h1, if_neg h2]
  · rcases hv : goAtoi (qOffset.getD "0") with _ | v
    · simp only [hv]
      unfold effectiveOffset
      simp [hv]
    · simp only [hv]
      split_ifs with h1
      · unfold effectiveOffset
        simp only [hv]
        rw [if_pos h1]
      · unfold effectiveOffset
        simp only [hv]
        rw [if_neg h1]
  · rfl
  · have h100 := effectiveLimit_le_100 (qLimit.getD "10")
    have hlen : (repoGetAllPayments db (effectiveLimit (qLimit.getD "10"))
        (effectiveOffset (qOffset.getD "0"))).length ≤
        (effectiveLimit (qLimit.getD "10")).toNat := by
      simp only [repoGetAllPayments, List.length_take]
      exact min_le_left _ _
    omega

/-- C9 witness: limit query "200" is capped to 100, offset query "-5" is
clamped to 0, and a three-row database is returned in full with an echo of
the clamped values. -/
theorem getAllPayments_pagination_clamped_witness :
    effectiveLimit "200" = 100 ∧ effectiveOffset "-5" = 0 ∧
    GetAllPayments [1, 2, 3] false (some "200") (some "-5") =
      PaymentsListResult.ok [1, 2, 3] 100 0 3 ∧
    (repoGetAllPayments [1, 2, 3] (effectiveLimit "200")
      (effectiveOffset "-5")).length ≤ 100 :=
  getAllPayments_pagination_clamped [1, 2, 3] (some "200") (some "-5")

/-- Roundtrip half of the spec signature property: a signature produced by
the spec signing algorithm over the same secret, timestamp and body always
verifies, for every choice of the external HMAC and base64 primitives. -/
theorem verifyWebhookSignature_roundtrip (cp : CryptoPrims)
    (secret timestamp body : String) :
    VerifyWebhookSignature cp secret (signWebhook cp secret timestamp body)
      timestamp body = true := by
  simp [VerifyWebhookSignature, signWebhook]

/-- Exactness of the comparison: verification succeeds iff the supplied
signature is exactly the genuine one, for every choice of primitives; hence
any mutated signature (which differs as a string) is rejected. The
corresponding statement for a mutated timestamp or body is collision
resistance of HMAC-SHA256 and does not follow from the comparison logic. -/
theorem verifyWebhookSignature_iff_eq_sign (cp : CryptoPrims)
    (secret sig timestamp body : String) :
    VerifyWebhookSignature cp secret sig timestamp body = true ↔
      sig = signWebhook cp secret timestamp body := by
  simp only [VerifyWebhookSignature, signWebhook, beq_iff_eq]
  exact eq_comm

end CashfreeGo
